import Mathlib

/-!
Shallow embedding of the core of `idevicererestore` (`src/idevicererestore/idevicerestore.c`):
the property-list data model, the build-manifest lookups, the re-restore ramdisk
classifier, the baseband resolver, the TSS ticket client and the IBFL check,
together with theorems settling the frozen claims about them.

External collaborators (libplist parsing, zlib, OpenSSL SHA-1, the IPSW reader and
the HTTP transport) are abstracted as function parameters; everything the C file
itself computes is translated directly.
-/

set_option maxHeartbeats 1000000

namespace IdeviceReRestore

/-- Property-list values, mirroring the libplist node kinds the program consumes
(`PLIST_BOOLEAN`, `PLIST_UINT`, `PLIST_STRING`, `PLIST_DATA`, `PLIST_ARRAY`, `PLIST_DICT`). -/
inductive Plist where
  | pbool (b : Bool)
  | puint (n : Nat)
  | pstring (s : String)
  | pdata (bytes : List Nat)
  | parray (items : List Plist)
  | pdict (entries : List (String × Plist))

/-- Node-kind tags, mirroring `plist_type` as returned by `plist_get_node_type`. -/
inductive PType where
  | pbool | puint | pstring | pdata | parray | pdict
deriving DecidableEq

def Plist.typeOf : Plist → PType
  | .pbool _ => .pbool
  | .puint _ => .puint
  | .pstring _ => .pstring
  | .pdata _ => .pdata
  | .parray _ => .parray
  | .pdict _ => .pdict

/-- `plist_dict_get_item`: returns the value for a key of a dict node,
`NULL` (here `none`) when the node is not a dict or the key is absent. -/
def plist_dict_get_item : Plist → String → Option Plist
  | .pdict entries, key => (entries.find? (fun e => e.1 == key)).map (·.2)
  | _, _ => none

/-- `plist_dict_get_item` lifted to a possibly-`NULL` node. -/
def dictGetO (node : Option Plist) (key : String) : Option Plist :=
  match node with
  | some p => plist_dict_get_item p key
  | none => none

/-- `plist_dict_get_size`: the number of entries of a dict node, 0 for
anything that is not a dict (libplist returns 0 for invalid nodes). -/
def dictSize : Option Plist → Nat
  | some (.pdict entries) => entries.length
  | _ => 0

/-- The entries a `plist_dict_iter` walk yields: the dict's entries in order,
nothing when the node is not a dict. -/
def dictEntries : Option Plist → List (String × Plist)
  | some (.pdict entries) => entries
  | _ => []

/-- ASCII `tolower`, as used by `strcasecmp`. -/
def asciiLower (c : Char) : Char :=
  if 'A' ≤ c ∧ c ≤ 'Z' then Char.ofNat (c.toNat + 32) else c

/-- `strcasecmp(a, b) == 0`: case-insensitive ASCII string equality. -/
def strcasecmpEq (a b : String) : Bool :=
  a.toList.map asciiLower == b.toList.map asciiLower

/-- `strtoul(s, NULL, 10)` on the build strings the program feeds it:
the value of the leading decimal digits. -/
def strtoul10 (s : String) : Nat :=
  (s.toList.takeWhile Char.isDigit).foldl (fun a c => a * 10 + (c.toNat - 48)) 0

/-- The `client->flags` bit set (`FLAG_*` in `common.h`), one field per flag
the translated code reads or writes. -/
structure Flags where
  debug : Bool := false
  erase : Bool := false
  update : Bool := false
  custom : Bool := false
  rerestore : Bool := false
  latest : Bool := false
  shshonly : Bool := false
  noaction : Bool := false
deriving DecidableEq

/-- The scan inside `build_manifest_get_build_identity_for_model_with_restore_behavior`:
walk the `BuildIdentities` array, skip entries that are not dicts or have no `Info`
(the source re-tests the identity's own node type where its intent was to test
`info_dict`), and return the first identity whose `Info.DeviceClass` equals the model
case-insensitively and, when a behavior is requested, whose `Info.RestoreBehavior`
equals it case-insensitively. -/
def findIdentity (idents : List Plist) (model : String) (behavior : Option String) : Option Plist :=
  match idents with
  | [] => none
  | ident :: rest =>
    if ident.typeOf ≠ .pdict then findIdentity rest model behavior
    else
      match plist_dict_get_item ident "Info" with
      | none => findIdentity rest model behavior
      | some info =>
        match plist_dict_get_item info "DeviceClass" with
        | some (.pstring dc) =>
          if strcasecmpEq dc model then
            match behavior with
            | none => some ident
            | some b =>
              match plist_dict_get_item info "RestoreBehavior" with
              | some (.pstring rb) =>
                if strcasecmpEq rb b then some ident else findIdentity rest model behavior
              | _ => findIdentity rest model behavior
          else findIdentity rest model behavior
        | _ => findIdentity rest model behavior

/-- `build_manifest_get_build_identity_for_model_with_restore_behavior`
(behavior `none` models passing `NULL`). -/
def build_manifest_get_build_identity_for_model_with_restore_behavior
    (manifest : Plist) (model : String) (behavior : Option String) : Option Plist :=
  match plist_dict_get_item manifest "BuildIdentities" with
  | some (.parray idents) => findIdentity idents model behavior
  | _ => none

/-- `build_manifest_get_build_identity_for_model`: same scan with no behavior filter. -/
def build_manifest_get_build_identity_for_model (manifest : Plist) (model : String) : Option Plist :=
  build_manifest_get_build_identity_for_model_with_restore_behavior manifest model none

/-- `build_identity_get_component_path`: `identity.Manifest[component].Info.Path`,
failing whenever a node on the way is missing or of the wrong kind. -/
def build_identity_get_component_path (ident : Option Plist) (component : String) : Option String :=
  match dictGetO (dictGetO (dictGetO (dictGetO ident "Manifest") component) "Info") "Path" with
  | some (.pstring s) => some s
  | _ => none

/-! ## Re-restore classifier (`idevicerestore_start`, the `retry`/`rdcheckdone` block) -/

/-- `*(uint32_t*)(data+off)`: the little-endian 32-bit word at byte offset `off`
(reads past the end yield 0, which the translated code only reaches in-bounds). -/
def le32 (l : List Nat) (off : Nat) : Nat :=
  l.getD off 0 + 256 * l.getD (off + 1) 0 + 65536 * l.getD (off + 2) 0 +
    16777216 * l.getD (off + 3) 0

/-- The bound of the ticket scan loop `for (int i=0; i < (ticketSize-0x14); i++)`:
`ticketSize` is an `unsigned int`, so the subtraction is performed modulo 2^32. -/
def ticketScanBound (len : Nat) : Nat := (len + 4294967296 - 0x14) % 4294967296

/-- The ticket scan: some offset `i` below the (unsigned) loop bound starts a
0x14-byte window equal to the digest (`memcmp(ticketData+i, hashBuf, 0x14) == 0`). -/
def ticketHasHash (ticket h : List Nat) : Bool :=
  (List.range (ticketScanBound ticket.length)).any fun i => (ticket.drop i).take 0x14 == h

/-- Outcome of one `retry` round on the current build identity. -/
inductive RdAttempt where
  | noPath    | noData    | tooShort    | unsignedImage    | found    | missed
deriving DecidableEq

/-- One round of the ramdisk check: resolve the `RestoreRamDisk` path, extract it,
reject short or unsigned images, hash the body from offset 0x0C and scan the ticket. -/
def rdAttempt (extract : String → Option (List Nat)) (sha1 : List Nat → List Nat)
    (ticket : List Nat) (ident : Option Plist) : RdAttempt :=
  match build_identity_get_component_path ident "RestoreRamDisk" with
  | none => .noPath
  | some path =>
    match extract path with
    | none => .noData
    | some rd =>
      if rd.length = 0 then .noData
      else if rd.length < 0x14 then .tooShort
      else if le32 rd 0xC = 0 then .unsignedImage
      else if ticketHasHash ticket (sha1 (rd.drop 0xC)) then .found
      else .missed

/-- Number of ticket scans a round performed. -/
def attemptScans : RdAttempt → Nat
  | .found => 1
  | .missed => 1
  | _ => 0

/-- State at `rdcheckdone`: the flag word, the (possibly re-looked-up) build
identity, how many identity swaps happened and how many ticket scans ran. -/
structure RdResult where
  flags : Flags
  identity : Option Plist
  swaps : Nat
  scans : Nat

/-- The classifier body after the APTicket was obtained: try the current identity;
on a miss swap Erase↔Update once (reverting to Erase when the Update identity is
absent); a second miss pins the identity to Erase and sets `FLAG_CUSTOM`. -/
def rdClassifyCore (manifest : Plist) (model : String)
    (extract : String → Option (List Nat)) (sha1 : List Nat → List Nat)
    (ticket : List Nat) (flags0 : Flags) (ident0 : Option Plist) : RdResult :=
  let lookupErase :=
    build_manifest_get_build_identity_for_model_with_restore_behavior manifest model (some "Erase")
  match rdAttempt extract sha1 ticket ident0 with
  | .unsignedImage => ⟨{ flags0 with custom := true }, ident0, 0, 0⟩
  | .missed =>
    if flags0.erase then
      match build_manifest_get_build_identity_for_model_with_restore_behavior
          manifest model (some "Update") with
      | none => ⟨flags0, lookupErase, 0, 1⟩
      | some u =>
        let flags1 := { flags0 with erase := false }
        match rdAttempt extract sha1 ticket (some u) with
        | .unsignedImage => ⟨{ flags1 with custom := true }, some u, 1, 1⟩
        | .missed => ⟨{ flags1 with erase := true, custom := true }, lookupErase, 1, 2⟩
        | a => ⟨flags1, some u, 1, 1 + attemptScans a⟩
    else
      let flags1 := { flags0 with erase := true }
      match rdAttempt extract sha1 ticket lookupErase with
      | .unsignedImage => ⟨{ flags1 with custom := true }, lookupErase, 1, 1⟩
      | .missed => ⟨{ flags1 with custom := true }, lookupErase, 1, 2⟩
      | a => ⟨flags1, lookupErase, 1, 1 + attemptScans a⟩
  | a => ⟨flags0, ident0, 0, attemptScans a⟩

/-- The classification phase of `idevicerestore_start`: runs only when TSS is
enabled and `FLAG_RERESTORE` is set, and only when a nonempty `APTicket` byte
string could be taken from the TSS response. -/
def rdClassify (tssEnabled : Bool) (manifest : Plist) (model : String)
    (extract : String → Option (List Nat)) (sha1 : List Nat → List Nat)
    (apticket : Option (List Nat)) (flags0 : Flags) (ident0 : Option Plist) : RdResult :=
  if tssEnabled && flags0.rerestore then
    match apticket with
    | none => ⟨flags0, ident0, 0, 0⟩
    | some t =>
      if t.length = 0 then ⟨flags0, ident0, 0, 0⟩
      else rdClassifyCore manifest model extract sha1 t flags0 ident0
  else ⟨flags0, ident0, 0, 0⟩

/-! ## Initial build-identity selection (`idevicerestore_start`, lines 363-380) -/

/-- Result of the initial selection: a chosen identity (possibly `NULL`), the
"Unable to find any build identities" error, or `exit(1)` for no install option. -/
inductive IdentSel where
  | ok (ident : Option Plist)
  | err
  | exitOne

/-- The initial build-identity selection: `FLAG_ERASE` requires the Erase identity
and fails without it; `FLAG_UPDATE` takes the Update identity, silently falling back
to the first identity for the model (possibly `NULL`); neither flag exits. -/
def selectInitialIdentity (manifest : Plist) (model : String) (flags : Flags) : IdentSel :=
  if flags.erase then
    match build_manifest_get_build_identity_for_model_with_restore_behavior
        manifest model (some "Erase") with
    | none => .err
    | some i => .ok (some i)
  else if flags.update then
    .ok (match build_manifest_get_build_identity_for_model_with_restore_behavior
           manifest model (some "Update") with
         | some i => some i
         | none => build_manifest_get_build_identity_for_model manifest model)
  else .exitOne

/-- The claim's reading of the fallback, stated from the spec's words: the first
build identity whose `Info.DeviceClass` matches the hardware model. -/
def specMatchesModel (ident : Plist) (model : String) : Bool :=
  match plist_dict_get_item ident "Info" with
  | some info =>
    match plist_dict_get_item info "DeviceClass" with
    | some (.pstring dc) => strcasecmpEq dc model
    | _ => false
  | none => false

/-! ## The session start sequence up to the first TSS request
(`idevicerestore_start`, lines 146-418), as an event trace. -/

inductive Mode where
  | unknown | wtf | dfu | recovery | normal | restore
deriving DecidableEq

/-- Externally visible actions of the start sequence, in program order. -/
inductive Ev where
  | checkMode | wtfBootstrap | downloadLatest | exitRestoreReboot
  | extractManifest | compatCheck | image4Reject | selectIdentity | ticketRequest
deriving DecidableEq

/-- Environment for the start sequence: the caller's flags plus the outcome of
every external probe the translated code consults, in the order it consults them. -/
structure StartEnv where
  flags : Flags
  ipswGiven : Bool
  initialMode : Mode
  wtfOk : Bool
  modelOk : Bool
  latestOk : Bool
  latestCode : Int
  rebootOk : Bool
  modeAfterReboot : Mode
  ipswExists : Bool
  manifestOk : Bool
  compatOk : Bool
  image4supported : Bool
  eraseIdentOk : Bool
  ecidOk : Bool
  tssOk : Bool

/-- The re-restore flag fixup at the top of `idevicerestore_start`: a re-restore
with neither install option set defaults to Erase. -/
def fixupFlags (f : Flags) : Flags :=
  if f.rerestore && !f.erase && !f.update then { f with erase := true } else f

/-- The mode after the WTF bootstrap block: a WTF device re-enumerates in DFU. -/
def modeAfterWtf (env : StartEnv) : Mode :=
  if env.initialMode = .wtf then Mode.dfu else env.initialMode

/-- The actions performed through mode detection (and WTF bootstrap if needed). -/
def detectTrace (env : StartEnv) : List Ev :=
  if env.initialMode = .wtf then [Ev.checkMode, Ev.wtfBootstrap] else [Ev.checkMode]

/-- The actions performed through the optional latest-firmware download. -/
def latestTrace (env : StartEnv) (flags : Flags) : List Ev :=
  if flags.latest then detectTrace env ++ [Ev.downloadLatest] else detectTrace env

/-- The actions performed through the optional exit-restore reboot. -/
def rebootTrace (env : StartEnv) (flags : Flags) : List Ev :=
  if modeAfterWtf env = .restore then latestTrace env flags ++ [Ev.exitRestoreReboot]
  else latestTrace env flags

/-- The body of the start sequence after the flag fixup, from the option checks
through the first TSS request, as the list of actions performed plus the early
exit code (`none` means the sequence ran past the first TSS request). -/
def startSeqWith (env : StartEnv) (flags : Flags) : List Ev × Option Int :=
  if flags.latest && flags.custom then ([], some (-1))
  else if !env.ipswGiven && !flags.latest then ([], some (-1))
  else if env.initialMode = .unknown then ([.checkMode], some (-1))
  else if env.initialMode = .wtf ∧ ¬env.wtfOk then
    ([.checkMode, .wtfBootstrap], some (-1))
  else if !env.modelOk then (detectTrace env, some (-1))
  else if flags.latest ∧ ¬env.latestOk then
    (detectTrace env ++ [.downloadLatest], some env.latestCode)
  else if flags.noaction then (latestTrace env flags, some 0)
  else if modeAfterWtf env = .restore ∧ ¬env.rebootOk then
    (latestTrace env flags ++ [.exitRestoreReboot], some (-2))
  else if modeAfterWtf env = .restore ∧ env.modeAfterReboot = .unknown then
    (latestTrace env flags ++ [.exitRestoreReboot], some (-1))
  else if !env.ipswExists then (rebootTrace env flags, some (-1))
  else if !env.manifestOk then (rebootTrace env flags ++ [.extractManifest], some (-1))
  else if !env.compatOk then
    (rebootTrace env flags ++ [.extractManifest, .compatCheck], some (-1))
  else if env.image4supported then
    (rebootTrace env flags ++ [.extractManifest, .compatCheck, .image4Reject],
     some (-1))
  else
    let t6 := rebootTrace env flags ++ [.extractManifest, .compatCheck, .selectIdentity]
    if flags.erase ∧ ¬env.eraseIdentOk then (t6, some (-1))
    else if !flags.erase ∧ !flags.update then (t6, some 1)
    else if !env.ecidOk then (t6, some (-1))
    else if !env.tssOk then (t6 ++ [.ticketRequest], some (-1))
    else (t6 ++ [Ev.ticketRequest], none)

/-- The start of `idevicerestore_start`: the flag fixup followed by the body. -/
def startSeq (env : StartEnv) : List Ev × Option Int :=
  startSeqWith env (fixupFlags env.flags)

/-! ## Ticket client (`get_tss_response`) -/

/-- The cache file name `"%s/shsh/%lld-%s-%s-%s.shsh"` built from the session's
ECID, product type, product version and build version. -/
def shshPath (cacheDir : Option String) (ecid : Nat) (productType ver build : String) : String :=
  (match cacheDir with
   | some d => d ++ "/shsh/"
   | none => "shsh/") ++
    toString ecid ++ "-" ++ productType ++ "-" ++ ver ++ "-" ++ build ++ ".shsh"

def cydiaTssUrl : String := "http://cydia.saurik.com/TSS/controller?action=2"

def appleTssUrl : String := "http://gs.apple.com/TSS/controller?action=2"

/-- The session state `get_tss_response` reads. -/
structure TssEnv where
  flags : Flags
  ecid : Nat
  productType : String
  version : Option String
  build : String
  cacheDir : Option String
  tssUrl : Option String

/-- What one `get_tss_response` call produced: the response, whether and where a
network request was sent, the `client->tss_url` left behind, and the return code. -/
structure TssCallResult where
  tss : Option Plist
  sentRequest : Bool
  requestUrl : Option String
  finalUrl : Option String
  ret : Int

/-- `get_tss_response`: in re-restore mode first load the gz cache file named by the
session tuple; on a miss point the client at the community (Cydia) endpoint and send
the assembled request there; after a successful fetch in re-restore mode store the
vendor endpoint as the client's URL. `cache` abstracts stat+gzread+plist parsing of a
file name, `network` abstracts `tss_request_send` on a URL (`none` = request failed). -/
def get_tss_response (env : TssEnv) (cache : String → Option Plist)
    (network : Option String → Option Plist) : TssCallResult :=
  let localTss : Option Plist :=
    if env.flags.rerestore then
      match env.version with
      | some v => cache (shshPath env.cacheDir env.ecid env.productType v env.build)
      | none => none
    else none
  match localTss with
  | some t => ⟨some t, false, none, env.tssUrl, 0⟩
  | none =>
    let url := if env.flags.rerestore then some cydiaTssUrl else env.tssUrl
    match network url with
    | none => ⟨none, true, url, url, -1⟩
    | some resp =>
      ⟨some resp, true, url, if env.flags.rerestore then some appleTssUrl else url, 0⟩

/-! ## Baseband resolver (`idevicerestore_start`, lines 886-1087) -/

/-- The device-specific reference index table (`indexCount`), `-1` for devices not
in the table. -/
def bbIndexCount (device : String) : Int :=
  if device = "iPhone5,2" ∨ device = "iPad3,5" then 0
  else if device = "iPhone5,4" ∨ device = "iPad3,6" then 2
  else if device = "iPhone5,1" ∨ device = "iPad3,4" then 4
  else if device = "iPhone5,3" then 6
  else -1

/-- The table index after the `FLAG_UPDATE` increment. -/
def bbIndexAdjusted (device : String) (update : Bool) : Int :=
  let i := bbIndexCount device
  if i ≠ -1 ∧ update then i + 1 else i

/-- Which build identity index of the downloaded manifest the resolver uses:
for `build_major ≥ 14` the table entry (failing, `none`, when the device is not in
the table); for anything older always index 0. `build` is the downloaded manifest's
`ProductBuildVersion`. -/
def bbReferenceIdentityIndex (device : String) (update : Bool) (build : String) : Option Nat :=
  let idx := bbIndexAdjusted device update
  let major := strtoul10 build
  if 14 ≤ major ∧ idx = -1 then none
  else if 14 ≤ major then some idx.toNat
  else some 0

/-- The claim's reading of the index, stated from the spec's words: always the
device table value, plus one when the Update flag is set, 0 for unlisted devices. -/
def bbClaimIndex (device : String) (update : Bool) : Nat :=
  if device = "iPhone5,2" ∨ device = "iPad3,5" then (if update then 1 else 0)
  else if device = "iPhone5,4" ∨ device = "iPad3,6" then (if update then 3 else 2)
  else if device = "iPhone5,1" ∨ device = "iPad3,4" then (if update then 5 else 4)
  else if device = "iPhone5,3" then (if update then 7 else 6)
  else 0

/-- Outcome of the baseband comparison: adopt the archive's baseband, download a
fresh one, or leave the session without a baseband (`bbdlout` reached directly). -/
inductive BBOutcome where
  | useLocal | download | skip
deriving DecidableEq

/-- The comparison loop over the archive's `BasebandFirmware` entries against the
reference dict: a missing key or type mismatch downloads; `Data` must be byte-equal
and `Integer` numerically equal; a `Dict` under key `Info` is skipped; every other
kind falls to the download default. Completing the loop elects the local baseband. -/
def bbCompareEntries (dNew : Option Plist) : List (String × Plist) → BBOutcome
  | [] => .useLocal
  | (key, v) :: rest =>
    match dictGetO dNew key with
    | none => .download
    | some vNew =>
      if vNew.typeOf ≠ v.typeOf then .download
      else
        match v, vNew with
        | .pdata bs, .pdata bs2 =>
          if bs.length ≠ bs2.length then .download
          else if bs = bs2 then bbCompareEntries dNew rest
          else .download
        | .puint n, .puint m =>
          if n = m then bbCompareEntries dNew rest else .download
        | .pdict _, _ =>
          if key = "Info" then bbCompareEntries dNew rest else .download
        | _, _ => .download

/-- The baseband resolver given the archive identity and the reference identity of
the downloaded manifest: resolve the reference `BasebandFirmware.Info.Path`, compare
the two `BasebandFirmware` dicts entry by entry, and elect local reuse only when
they fully match. -/
def bbResolve (identIPSW identNew : Plist) : BBOutcome :=
  let bbfwPath :=
    dictGetO (dictGetO (dictGetO (plist_dict_get_item identNew "Manifest")
      "BasebandFirmware") "Info") "Path"
  match bbfwPath with
  | none => .skip
  | some p =>
    if p.typeOf ≠ .pstring then .download
    else
      let dIPSW := dictGetO (plist_dict_get_item identIPSW "Manifest") "BasebandFirmware"
      let dNew := dictGetO (plist_dict_get_item identNew "Manifest") "BasebandFirmware"
      if dictSize dIPSW ≠ dictSize dNew then .download
      else if dictSize dNew = 0 then .skip
      else bbCompareEntries dNew (dictEntries dIPSW)

/-! ## The IBFL check after the iBEC upload (`idevicerestore_start`, lines 835-854) -/

/-- What the IBFL switch does. -/
inductive IbflStatus where
  | fatal | successLogged | proceed
deriving DecidableEq

/-- The switch on `device_info->ibfl`: 0x03 and 0x1B abort the session; 0x02 and
0x1A print success and continue; everything else falls to the default and continues. -/
def ibflCheck (ibfl : Nat) : IbflStatus :=
  if ibfl = 0x03 ∨ ibfl = 0x1B then .fatal
  else if ibfl = 0x02 ∨ ibfl = 0x1A then .successLogged
  else .proceed

/-! ## Concrete instances used by the witnesses and counterexamples -/

/-- A 16-byte extracted RestoreRamDisk image, too short for an Image3. -/
def rd2 : List Nat := List.replicate 16 7

def ident2 : Plist :=
  .pdict [("Info", .pdict [("DeviceClass", .pstring "n41ap"),
                           ("RestoreBehavior", .pstring "Erase")]),
          ("Manifest", .pdict [("RestoreRamDisk",
            .pdict [("Info", .pdict [("Path", .pstring "rd.dmg")])])])]

def manifest2 : Plist := .pdict [("BuildIdentities", .parray [ident2])]

def ext2 : String → Option (List Nat) := fun p => if p = "rd.dmg" then some rd2 else none

def sha2 : List Nat → List Nat := fun b => List.replicate 19 0 ++ [b.length % 256]

def tk2 : List Nat := List.replicate 32 0

def fl2 : Flags := { erase := true, rerestore := true }

/-- A manifest holding only an Erase identity for model `n41ap`. -/
def ident10 : Plist :=
  .pdict [("Info", .pdict [("DeviceClass", .pstring "n41ap"),
                           ("RestoreBehavior", .pstring "Erase")]),
          ("Manifest", .pdict [])]

def manifest10 : Plist := .pdict [("BuildIdentities", .parray [ident10])]

/-- A re-restore session state with an empty client URL. -/
def tssEnv7 : TssEnv :=
  { flags := { erase := true, rerestore := true }, ecid := 99,
    productType := "iPhone5,2", version := some "9.3.5", build := "13G36",
    cacheDir := none, tssUrl := none }

def emptyCache7 : String → Option Plist := fun _ => none

def net7 : Option String → Option Plist := fun _ => some (.pdict [("APTicket", .pdata [1])])

/-- A cache holding a ticket under exactly the session's tuple-derived name. -/
def hitCache7 : String → Option Plist :=
  fun s => if s = shshPath none 99 "iPhone5,2" "9.3.5" "13G36"
           then some (.pbool true) else none

/-- One pass of the baseband comparison loop body as a predicate: the entry's key
is found in the reference dict with the same node kind and, per kind, byte-equal
`Data`, equal `Integer`, or a `Dict` under the key `Info`. -/
def entryPasses (dNew : Option Plist) (e : String × Plist) : Bool :=
  match dictGetO dNew e.1 with
  | none => false
  | some vNew =>
    if vNew.typeOf ≠ e.2.typeOf then false
    else
      match e.2, vNew with
      | .pdata bs, .pdata bs2 => bs.length == bs2.length && bs == bs2
      | .puint n, .puint m => n == m
      | .pdict _, _ => e.1 == "Info"
      | _, _ => false

/-- The value kinds the comparison loop can accept: `Data`, `Integer`, or a `Dict`
under the key `Info`; anything else falls to the download default. -/
def entryIsComparable (e : String × Plist) : Bool :=
  match e.2 with
  | .pdata _ => true
  | .puint _ => true
  | .pdict _ => e.1 == "Info"
  | _ => false

/-- A `BasebandFirmware` dict whose entries are all well-kinded for the loop. -/
def bbDict6w : Plist :=
  .pdict [("Info", .pdict [("Path", .pstring "bb.fw")]),
          ("Digest", .pdata [1, 2]), ("ChipID", .puint 7)]

def bbIdent6w : Plist := .pdict [("Manifest", .pdict [("BasebandFirmware", bbDict6w)])]

/-- A `BasebandFirmware` dict carrying a string value next to `Info`. -/
def bbDict6 : Plist :=
  .pdict [("Info", .pdict [("Path", .pstring "Firmware/Mav7.bbfw")]),
          ("Misc", .pstring "x")]

def bbIdent6 : Plist := .pdict [("Manifest", .pdict [("BasebandFirmware", bbDict6)])]

/-- An Erase identity whose RestoreRamDisk lives at `e1.dmg`. -/
def identE1 : Plist :=
  .pdict [("Info", .pdict [("DeviceClass", .pstring "n41ap"),
                           ("RestoreBehavior", .pstring "Erase")]),
          ("Manifest", .pdict [("RestoreRamDisk",
            .pdict [("Info", .pdict [("Path", .pstring "e1.dmg")])])])]

/-- An Update identity whose RestoreRamDisk lives at `u1.dmg`. -/
def identU1 : Plist :=
  .pdict [("Info", .pdict [("DeviceClass", .pstring "n41ap"),
                           ("RestoreBehavior", .pstring "Update")]),
          ("Manifest", .pdict [("RestoreRamDisk",
            .pdict [("Info", .pdict [("Path", .pstring "u1.dmg")])])])]

def manifest1 : Plist := .pdict [("BuildIdentities", .parray [identE1, identU1])]

def rdE1 : List Nat := List.replicate 20 1

def rdU1 : List Nat := List.replicate 21 2

def ext1 : String → Option (List Nat) := fun p =>
  if p = "e1.dmg" then some rdE1 else if p = "u1.dmg" then some rdU1 else none

/-- A stand-in digest function separating the two ramdisk bodies by length. -/
def sha1w : List Nat → List Nat := fun b => List.replicate 19 0 ++ [b.length % 256]

/-- A ticket containing the Update ramdisk's digest but not the Erase one's. -/
def tk1 : List Nat := List.replicate 19 0 ++ [9, 0]

def fl1 : Flags := { erase := true, rerestore := true }

/-- Identities for the double-miss scenario, with ramdisks at `e3.dmg`/`u3.dmg`. -/
def identE3 : Plist :=
  .pdict [("Info", .pdict [("DeviceClass", .pstring "n41ap"),
                           ("RestoreBehavior", .pstring "Erase")]),
          ("Manifest", .pdict [("RestoreRamDisk",
            .pdict [("Info", .pdict [("Path", .pstring "e3.dmg")])])])]

def identU3 : Plist :=
  .pdict [("Info", .pdict [("DeviceClass", .pstring "n41ap"),
                           ("RestoreBehavior", .pstring "Update")]),
          ("Manifest", .pdict [("RestoreRamDisk",
            .pdict [("Info", .pdict [("Path", .pstring "u3.dmg")])])])]

def manifest3 : Plist := .pdict [("BuildIdentities", .parray [identE3, identU3])]

def ext3 : String → Option (List Nat) := fun p =>
  if p = "e3.dmg" then some (List.replicate 20 1)
  else if p = "u3.dmg" then some (List.replicate 20 2) else none

/-- A digest that never occurs in the ticket below. -/
def sha3 : List Nat → List Nat := fun b => List.replicate 19 9 ++ [b.length % 256]

def tk3 : List Nat := List.replicate 30 5

def fl3 : Flags := { erase := true, rerestore := true }

/-- A session on an Image4-capable device found in Restore mode. -/
def env8 : StartEnv :=
  { flags := { erase := true }, ipswGiven := true, initialMode := .restore,
    wtfOk := true, modelOk := true, latestOk := true, latestCode := 0,
    rebootOk := true, modeAfterReboot := .recovery, ipswExists := true,
    manifestOk := true, compatOk := true, image4supported := true,
    eraseIdentOk := true, ecidOk := true, tssOk := true }

/-- The same Image4-capable session started from DFU mode. -/
def env8w : StartEnv := { env8 with initialMode := .dfu }

/-! ## Claim C9 -/

/-- Claim C9: after the iBEC upload, the IBFL switch maps 0x03 and 0x1B to a fatal
abort, 0x02 and 0x1A to logged success, and every other value continues the session. -/
theorem claim9_ibfl_mapping :
    (∀ ibfl : Nat, ibflCheck ibfl = .fatal ↔ ibfl = 0x03 ∨ ibfl = 0x1B) ∧
    ibflCheck 0x02 = .successLogged ∧ ibflCheck 0x1A = .successLogged ∧
    (∀ ibfl : Nat, ¬(ibfl = 0x03 ∨ ibfl = 0x1B) → ibflCheck ibfl ≠ .fatal) := by
  refine ⟨?_, by decide, by decide, ?_⟩
  · intro ibfl
    unfold ibflCheck
    split_ifs <;> simp_all
  · intro ibfl h
    unfold ibflCheck
    split_ifs <;> simp_all

/-- Witness for C9 at concrete IBFL values. -/
theorem claim9_ibfl_mapping_witness :
    ibflCheck 0x1B = IbflStatus.fatal ∧ ibflCheck 0x2A ≠ IbflStatus.fatal :=
  ⟨(claim9_ibfl_mapping.1 0x1B).mpr (Or.inr rfl),
   claim9_ibfl_mapping.2.2.2 0x2A (by decide)⟩

/-! ## Claim C4 -/

/-- Claim C4 (code bug): the ticket scan's loop bound `ticketSize - 0x14` is
computed in unsigned 32-bit arithmetic. For a 16-byte ticket it wraps to
4294967292, so the scan visits offsets far beyond the buffer instead of the empty
offset set the claim describes; only for tickets of at least 0x14 bytes does the
bound equal `length - 0x14` as claimed. -/
theorem claim4_ticket_scan_bound_overflow :
    ticketScanBound 16 = 4294967292 ∧ 16 < ticketScanBound 16 ∧
    ticketScanBound 36 = 16 := by
  decide

/-! ## Claim C5 -/

/-- Counterexample for C5: for `iPhone5,3` and a downloaded manifest with build
`13G37` (build-major 13 < 14) the resolver uses identity index 0, while the
device-specific table of the claim gives index 6. -/
theorem claim5_table_ignored_below_major14 :
    bbReferenceIdentityIndex "iPhone5,3" false "13G37" = some 0 ∧
    bbClaimIndex "iPhone5,3" false = 6 ∧ (0 : Nat) ≠ 6 := by
  decide

/-- Claim C5 as amended: the device-specific table (with the Update increment)
determines the reference identity index only when the downloaded manifest's
build-major is at least 14, failing there for devices outside the table; for a
build-major below 14 the resolver always uses index 0. -/
theorem claim5_index_selection_amended (device : String) (update : Bool) (build : String) :
    (14 ≤ strtoul10 build →
      (bbReferenceIdentityIndex device update build = none ↔
        bbIndexAdjusted device update = -1) ∧
      (bbIndexAdjusted device update ≠ -1 →
        bbReferenceIdentityIndex device update build =
          some (bbIndexAdjusted device update).toNat)) ∧
    (strtoul10 build < 14 → bbReferenceIdentityIndex device update build = some 0) := by
  simp only [bbReferenceIdentityIndex]
  constructor
  · intro hmaj
    split_ifs <;> simp_all
  · intro hmaj
    split_ifs <;> (try simp_all) <;> omega

/-- Witness for C5 at `iPhone5,1`, Update set, build `14G61`. -/
theorem claim5_index_selection_amended_witness :
    14 ≤ strtoul10 "14G61" ∧
    bbReferenceIdentityIndex "iPhone5,1" true "14G61" = some 5 := by
  have h := (claim5_index_selection_amended "iPhone5,1" true "14G61").1 (by decide)
  have h2 := h.2 (by decide)
  refine ⟨by decide, ?_⟩
  rw [h2]
  decide

/-! ## Claim C2 -/

/-- Counterexample for C2: with a RestoreRamDisk image of 16 < 0x14 bytes the
classifier stops, but `FLAG_CUSTOM` is NOT set (the short-image branch frees the
buffers and jumps to `rdcheckdone` without touching the flags). -/
theorem claim2_short_image_no_custom_flag :
    ext2 "rd.dmg" = some rd2 ∧ rd2.length < 0x14 ∧
    (rdClassify true manifest2 "n41ap" ext2 sha2 (some tk2) fl2
      (some ident2)).flags.custom = false := by
  refine ⟨rfl, by decide, ?_⟩
  rfl

/-- Claim C2 as amended: an image shorter than 0x14 bytes makes the classifier stop
with the flags, identity, swap count and scan count unchanged (no `FLAG_CUSTOM`);
an image of at least 0x14 bytes whose 32-bit word at offset 0x0C is zero makes it
set `FLAG_CUSTOM` and stop, with no hash search and no identity swap. -/
theorem claim2_short_or_unsigned_amended
    (manifest : Plist) (model : String) (extract : String → Option (List Nat))
    (sha1f : List Nat → List Nat) (t : List Nat) (flags0 : Flags) (ident0 : Plist)
    (path : String) (rd : List Nat)
    (hre : flags0.rerestore = true)
    (ht : t.length ≠ 0)
    (hp : build_identity_get_component_path (some ident0) "RestoreRamDisk" = some path)
    (he : extract path = some rd) :
    (rd.length < 0x14 →
      rdClassify true manifest model extract sha1f (some t) flags0 (some ident0) =
        ⟨flags0, some ident0, 0, 0⟩) ∧
    (0x14 ≤ rd.length → le32 rd 0xC = 0 →
      rdClassify true manifest model extract sha1f (some t) flags0 (some ident0) =
        ⟨{ flags0 with custom := true }, some ident0, 0, 0⟩) := by
  constructor
  · intro hlen
    have ha : rdAttempt extract sha1f t (some ident0) = .noData ∨
        rdAttempt extract sha1f t (some ident0) = .tooShort := by
      by_cases h0 : rd.length = 0
      · simp [rdAttempt, hp, he, h0]
      · simp [rdAttempt, hp, he, h0, hlen]
    unfold rdClassify rdClassifyCore
    rcases ha with ha | ha <;> simp [hre, ht, ha, attemptScans]
  · intro hlen hz
    have ha : rdAttempt extract sha1f t (some ident0) = .unsignedImage := by
      have h0 : ¬rd.length = 0 := by omega
      have h1 : ¬rd.length < 0x14 := by omega
      simp [rdAttempt, hp, he, h0, h1, hz]
    unfold rdClassify rdClassifyCore
    simp [hre, ht, ha]

/-- Witness for C2's amended statement at the concrete short image. -/
theorem claim2_short_or_unsigned_amended_witness :
    rd2.length < 0x14 ∧
    rdClassify true manifest2 "n41ap" ext2 sha2 (some tk2) fl2 (some ident2) =
      ⟨fl2, some ident2, 0, 0⟩ := by
  refine ⟨by decide, ?_⟩
  exact (claim2_short_or_unsigned_amended manifest2 "n41ap" ext2 sha2 tk2 fl2 ident2
    "rd.dmg" rd2 rfl (by decide) rfl rfl).1 (by decide)

/-! ## Claim C10 -/

/-- The behavior-free identity scan agrees with "first identity whose
`DeviceClass` matches the model". -/
theorem findIdentity_none_eq_find (idents : List Plist) (model : String) :
    findIdentity idents model none =
      idents.find? (fun ident => specMatchesModel ident model) := by
  induction idents with
  | nil => rfl
  | cons ident rest ih =>
    cases ident with
    | pdict entries =>
      cases hInfo : plist_dict_get_item (.pdict entries) "Info" with
      | none =>
        simp [findIdentity, specMatchesModel, Plist.typeOf, hInfo, ih, List.find?]
      | some info =>
        cases hdc : plist_dict_get_item info "DeviceClass" with
        | none =>
          simp [findIdentity, specMatchesModel, Plist.typeOf, hInfo, hdc, ih, List.find?]
        | some dc =>
          cases dc with
          | pstring s =>
            by_cases hm : strcasecmpEq s model
            · simp [findIdentity, specMatchesModel, Plist.typeOf, hInfo, hdc, hm, List.find?]
            · simp [findIdentity, specMatchesModel, Plist.typeOf, hInfo, hdc, hm, ih,
                List.find?]
          | pbool b =>
            simp [findIdentity, specMatchesModel, Plist.typeOf, hInfo, hdc, ih, List.find?]
          | puint n =>
            simp [findIdentity, specMatchesModel, Plist.typeOf, hInfo, hdc, ih, List.find?]
          | pdata bs =>
            simp [findIdentity, specMatchesModel, Plist.typeOf, hInfo, hdc, ih, List.find?]
          | parray items =>
            simp [findIdentity, specMatchesModel, Plist.typeOf, hInfo, hdc, ih, List.find?]
          | pdict entries2 =>
            simp [findIdentity, specMatchesModel, Plist.typeOf, hInfo, hdc, ih, List.find?]
    | pbool b => simp [findIdentity, specMatchesModel, Plist.typeOf, plist_dict_get_item,
        ih, List.find?]
    | puint n => simp [findIdentity, specMatchesModel, Plist.typeOf, plist_dict_get_item,
        ih, List.find?]
    | pstring s => simp [findIdentity, specMatchesModel, Plist.typeOf, plist_dict_get_item,
        ih, List.find?]
    | pdata bs => simp [findIdentity, specMatchesModel, Plist.typeOf, plist_dict_get_item,
        ih, List.find?]
    | parray items => simp [findIdentity, specMatchesModel, Plist.typeOf, plist_dict_get_item,
        ih, List.find?]

/-- Claim C10: with the Update behavior requested and no Update identity for the
model in the manifest, the selection does not fail: it returns (`ok`) the first
build identity whose `DeviceClass` matches the hardware model, regardless of that
identity's `RestoreBehavior`. -/
theorem claim10_update_fallback_first_model_match
    (manifest : Plist) (model : String) (flags : Flags) (idents : List Plist)
    (hupd : flags.update = true) (hner : flags.erase = false)
    (hbi : plist_dict_get_item manifest "BuildIdentities" = some (.parray idents))
    (hnoupd : build_manifest_get_build_identity_for_model_with_restore_behavior
      manifest model (some "Update") = none) :
    selectInitialIdentity manifest model flags =
      .ok (idents.find? (fun ident => specMatchesModel ident model)) := by
  unfold selectInitialIdentity
  simp only [hner, hupd, Bool.false_eq_true, if_false, if_true, hnoupd]
  unfold build_manifest_get_build_identity_for_model
  unfold build_manifest_get_build_identity_for_model_with_restore_behavior
  rw [hbi]
  exact congrArg IdentSel.ok (findIdentity_none_eq_find idents model)

/-- Witness for C10: requesting Update against an Erase-only manifest silently
selects the Erase identity (matched case-insensitively). -/
theorem claim10_update_fallback_first_model_match_witness :
    selectInitialIdentity manifest10 "N41AP" { update := true } = .ok (some ident10) := by
  have h := claim10_update_fallback_first_model_match manifest10 "N41AP" { update := true }
    [ident10] rfl rfl rfl (by rfl)
  rw [h]
  rfl

/-! ## Claim C7 -/

/-- Claim C7 as amended: in re-restore mode the client first loads the ticket from
the cache file named by exactly the (ECID, product type, version, build) tuple and
sends no request on a hit; on a miss it sends to the community (Cydia) endpoint —
regardless of the URL stored on the client, so a later re-restore call that misses
the cache again contacts the community endpoint, not the vendor one; after a
successful fetch the client's stored URL becomes the vendor endpoint. -/
theorem claim7_tss_endpoint_amended
    (env : TssEnv) (cache : String → Option Plist)
    (network : Option String → Option Plist)
    (hre : env.flags.rerestore = true) :
    (∀ v tkt, env.version = some v →
      cache (shshPath env.cacheDir env.ecid env.productType v env.build) = some tkt →
      get_tss_response env cache network = ⟨some tkt, false, none, env.tssUrl, 0⟩) ∧
    (∀ v, env.version = some v →
      cache (shshPath env.cacheDir env.ecid env.productType v env.build) = none →
      (get_tss_response env cache network).sentRequest = true ∧
      (get_tss_response env cache network).requestUrl = some cydiaTssUrl) ∧
    (∀ v resp, env.version = some v →
      cache (shshPath env.cacheDir env.ecid env.productType v env.build) = none →
      network (some cydiaTssUrl) = some resp →
      (get_tss_response env cache network).finalUrl = some appleTssUrl) := by
  refine ⟨?_, ?_, ?_⟩
  · intro v tkt hv hc
    unfold get_tss_response
    simp [hre, hv, hc]
  · intro v hv hc
    unfold get_tss_response
    simp only [hre, hv, hc, if_true]
    cases network (some cydiaTssUrl) <;> simp
  · intro v resp hv hc hn
    unfold get_tss_response
    simp [hre, hv, hc, hn]

/-- Counterexample for C7: after a successful community fetch (which does store the
vendor URL on the client), the next re-restore request again goes to the community
endpoint — the cache is rechecked and the miss path overwrites the stored URL. -/
theorem claim7_second_request_still_cydia :
    (get_tss_response tssEnv7 emptyCache7 net7).ret = 0 ∧
    (get_tss_response tssEnv7 emptyCache7 net7).requestUrl = some cydiaTssUrl ∧
    (get_tss_response tssEnv7 emptyCache7 net7).finalUrl = some appleTssUrl ∧
    (get_tss_response
        { tssEnv7 with tssUrl := (get_tss_response tssEnv7 emptyCache7 net7).finalUrl }
        emptyCache7 net7).sentRequest = true ∧
    (get_tss_response
        { tssEnv7 with tssUrl := (get_tss_response tssEnv7 emptyCache7 net7).finalUrl }
        emptyCache7 net7).requestUrl = some cydiaTssUrl ∧
    cydiaTssUrl ≠ appleTssUrl := by
  refine ⟨rfl, rfl, rfl, rfl, rfl, by decide⟩

/-- Witness for C7's amended statement: a cache hit returns the stored ticket with
no network request. -/
theorem claim7_tss_endpoint_amended_witness :
    get_tss_response tssEnv7 hitCache7 net7 = ⟨some (.pbool true), false, none, none, 0⟩ :=
  (claim7_tss_endpoint_amended tssEnv7 hitCache7 net7 rfl).1 "9.3.5" (.pbool true)
    rfl (by rfl)

/-! ## Claim C6 -/

/-- A passing entry lets the comparison loop continue to the rest of the dict. -/
theorem bbCompareEntries_cons_pass (dNew : Option Plist) (key : String) (v : Plist)
    (rest : List (String × Plist)) (h : entryPasses dNew (key, v) = true) :
    bbCompareEntries dNew ((key, v) :: rest) = bbCompareEntries dNew rest := by
  unfold entryPasses at h
  dsimp only at h
  conv_lhs => unfold bbCompareEntries
  cases hv : dictGetO dNew key with
  | none => rw [hv] at h; simp at h
  | some vNew =>
    rw [hv] at h
    cases v <;> cases vNew <;> simp_all [Plist.typeOf]

/-- A failing entry makes the comparison loop download. -/
theorem bbCompareEntries_cons_fail (dNew : Option Plist) (key : String) (v : Plist)
    (rest : List (String × Plist)) (h : entryPasses dNew (key, v) = false) :
    bbCompareEntries dNew ((key, v) :: rest) = .download := by
  unfold entryPasses at h
  dsimp only at h
  conv_lhs => unfold bbCompareEntries
  cases hv : dictGetO dNew key with
  | none => rfl
  | some vNew =>
    rw [hv] at h
    cases v <;> cases vNew <;> simp_all [Plist.typeOf]

/-- The comparison loop elects local reuse exactly when every archive entry passes
against the reference dict, and downloads otherwise. -/
theorem bbCompareEntries_eq_all (dNew : Option Plist) (es : List (String × Plist)) :
    bbCompareEntries dNew es =
      if es.all (entryPasses dNew) then .useLocal else .download := by
  induction es with
  | nil => rfl
  | cons e rest ih =>
    obtain ⟨key, v⟩ := e
    cases hp : entryPasses dNew (key, v) with
    | true =>
      rw [bbCompareEntries_cons_pass dNew key v rest hp, ih, List.all_cons, hp,
        Bool.true_and]
    | false =>
      rw [bbCompareEntries_cons_fail dNew key v rest hp, List.all_cons, hp,
        Bool.false_and]
      rfl

/-- In a dict with distinct keys, looking up an entry's key returns its value. -/
theorem plist_dict_get_item_mem (es : List (String × Plist))
    (hnd : (es.map Prod.fst).Nodup) :
    ∀ e ∈ es, plist_dict_get_item (.pdict es) e.1 = some e.2 := by
  induction es with
  | nil => intro e he; cases he
  | cons a rest ih =>
    intro e he
    simp only [List.map_cons, List.nodup_cons] at hnd
    rcases List.mem_cons.mp he with rfl | hmem
    · simp [plist_dict_get_item]
    · have hne : ((fun x => x.1 == e.1) a) = false := by
        simp only [beq_iff_eq, Bool.eq_false_iff, ne_eq]
        intro hEq
        exact hnd.1 (hEq ▸ List.mem_map_of_mem Prod.fst hmem)
      have hrec := ih hnd.2 e hmem
      simp only [plist_dict_get_item] at hrec ⊢
      rw [List.find?_cons_of_neg _ (by simp only [hne]; exact Bool.false_ne_true)]
      exact hrec

/-- Counterexample for C6: a resolver run in which the archive's and the
reference's `BasebandFirmware` subtrees are the very same dict (hence
byte-identical) but which elects download, because the dict carries a string
value, which the comparison switch sends to the download default. -/
theorem claim6_identical_dicts_download :
    bbResolve bbIdent6 bbIdent6 = .download ∧ BBOutcome.download ≠ BBOutcome.useLocal := by
  exact ⟨rfl, by decide⟩

/-- Claim C6 as amended: byte-identical `BasebandFirmware` dicts elect local reuse
provided the dict is nonempty, has distinct keys, its `Info.Path` is a string and
every value is `Data`, `Integer`, or the `Info` dict; the contents of a `Dict`
under key `Info` are ignored by the loop; and an entry with a missing reference
key, mismatched kind or mismatched value forces the download outcome. -/
theorem claim6_baseband_compare_amended :
    (∀ (identIPSW identNew : Plist) (es : List (String × Plist)) (pathStr : String),
      dictGetO (plist_dict_get_item identIPSW "Manifest") "BasebandFirmware"
        = some (.pdict es) →
      dictGetO (plist_dict_get_item identNew "Manifest") "BasebandFirmware"
        = some (.pdict es) →
      dictGetO (dictGetO (some (Plist.pdict es)) "Info") "Path"
        = some (.pstring pathStr) →
      es ≠ [] → (es.map Prod.fst).Nodup → es.all entryIsComparable = true →
      bbResolve identIPSW identNew = .useLocal) ∧
    (∀ (dNew : Option Plist) (x : List (String × Plist)),
      (∃ w, dictGetO dNew "Info" = some (.pdict w)) →
      entryPasses dNew ("Info", .pdict x) = true) ∧
    (∀ (dNew : Option Plist) (es : List (String × Plist)) (e : String × Plist),
      e ∈ es → entryPasses dNew e = false → bbCompareEntries dNew es = .download) := by
  refine ⟨?_, ?_, ?_⟩
  · intro identIPSW identNew es pathStr hA hB hpath hne hnd hcomp
    have hall : es.all (entryPasses (some (.pdict es))) = true := by
      rw [List.all_eq_true]
      intro e he
      have hget := plist_dict_get_item_mem es hnd e he
      have hkind := List.all_eq_true.mp hcomp e he
      unfold entryPasses
      simp only [dictGetO, hget]
      obtain ⟨k, v⟩ := e
      cases v <;> simp_all [entryIsComparable, Plist.typeOf]
    unfold bbResolve
    rw [hA, hB, hpath]
    have hlen : es.length ≠ 0 := by
      cases es with
      | nil => exact absurd rfl hne
      | cons a l => simp
    simp only [Plist.typeOf, ne_eq, dictSize, dictEntries, reduceCtorEq, not_false_eq_true,
      if_neg, if_false, ite_self]
    rw [if_neg (by simp), if_neg (by simp), if_neg hlen]
    rw [bbCompareEntries_eq_all, hall]
    rfl
  · intro dNew x hw
    obtain ⟨w, hw⟩ := hw
    simp [entryPasses, hw, Plist.typeOf]
  · intro dNew es e he hbad
    rw [bbCompareEntries_eq_all]
    have : es.all (entryPasses dNew) = false := by
      cases hall : es.all (entryPasses dNew) with
      | false => rfl
      | true => exact absurd (List.all_eq_true.mp hall e he) (by simp [hbad])
    rw [this]
    rfl

/-- Witness for C6's amended statement: a well-kinded dict compared against itself
elects local reuse. -/
theorem claim6_baseband_compare_amended_witness :
    bbResolve bbIdent6w bbIdent6w = .useLocal := by
  refine claim6_baseband_compare_amended.1 bbIdent6w bbIdent6w
    [("Info", .pdict [("Path", .pstring "bb.fw")]),
     ("Digest", .pdata [1, 2]), ("ChipID", .puint 7)] "bb.fw"
    rfl rfl rfl (by simp) (by decide) (by decide)

/-! ## Claim C3 -/

/-- The classifier body performs at most one identity swap. -/
theorem rdClassifyCore_swaps_le_one (manifest : Plist) (model : String)
    (extract : String → Option (List Nat)) (sha1f : List Nat → List Nat)
    (t : List Nat) (flags0 : Flags) (ident0 : Option Plist) :
    (rdClassifyCore manifest model extract sha1f t flags0 ident0).swaps ≤ 1 := by
  simp only [rdClassifyCore]
  cases rdAttempt extract sha1f t ident0 with
  | missed =>
    by_cases he : flags0.erase = true
    · rw [if_pos he]
      cases build_manifest_get_build_identity_for_model_with_restore_behavior manifest
          model (some "Update") with
      | none => simp
      | some u => cases h2 : rdAttempt extract sha1f t (some u) <;> simp [h2]
    · rw [if_neg he]
      cases h2 : rdAttempt extract sha1f t
          (build_manifest_get_build_identity_for_model_with_restore_behavior manifest
            model (some "Erase")) <;> simp [h2]
  | noPath => simp
  | noData => simp
  | tooShort => simp
  | unsignedImage => simp
  | found => simp

/-- Claim C3: the classifier swaps the build identity at most once; a second miss
(the swapped identity's ramdisk digest also absent from the ticket) sets
`FLAG_CUSTOM`, pins the identity to the Erase lookup and returns so the session
proceeds; when the Update swap target is absent from the manifest the classifier
reverts to the Erase identity and stops, with the custom flag untouched. -/
theorem claim3_swap_at_most_once :
    (∀ (tssEnabled : Bool) (manifest : Plist) (model : String)
       (extract : String → Option (List Nat)) (sha1f : List Nat → List Nat)
       (apticket : Option (List Nat)) (flags0 : Flags) (ident0 : Option Plist),
      (rdClassify tssEnabled manifest model extract sha1f apticket flags0 ident0).swaps
        ≤ 1) ∧
    (∀ (manifest : Plist) (model : String) (extract : String → Option (List Nat))
       (sha1f : List Nat → List Nat) (t : List Nat) (flags0 : Flags)
       (ident0 : Option Plist) (u : Plist),
      flags0.rerestore = true → flags0.erase = true → t.length ≠ 0 →
      rdAttempt extract sha1f t ident0 = .missed →
      build_manifest_get_build_identity_for_model_with_restore_behavior manifest model
        (some "Update") = some u →
      rdAttempt extract sha1f t (some u) = .missed →
      rdClassify true manifest model extract sha1f (some t) flags0 ident0 =
        ⟨{ flags0 with erase := true, custom := true },
         build_manifest_get_build_identity_for_model_with_restore_behavior manifest
           model (some "Erase"), 1, 2⟩) ∧
    (∀ (manifest : Plist) (model : String) (extract : String → Option (List Nat))
       (sha1f : List Nat → List Nat) (t : List Nat) (flags0 : Flags)
       (ident0 : Option Plist),
      flags0.rerestore = true → flags0.erase = true → t.length ≠ 0 →
      rdAttempt extract sha1f t ident0 = .missed →
      build_manifest_get_build_identity_for_model_with_restore_behavior manifest model
        (some "Update") = none →
      rdClassify true manifest model extract sha1f (some t) flags0 ident0 =
        ⟨flags0,
         build_manifest_get_build_identity_for_model_with_restore_behavior manifest
           model (some "Erase"), 0, 1⟩) := by
  refine ⟨?_, ?_, ?_⟩
  · intro tssEnabled manifest model extract sha1f apticket flags0 ident0
    unfold rdClassify
    split
    · cases apticket with
      | none => simp
      | some t =>
        dsimp only
        by_cases h0 : t.length = 0
        · simp [h0]
        · rw [if_neg h0]
          apply rdClassifyCore_swaps_le_one
    · simp
  · intro manifest model extract sha1f t flags0 ident0 u hre her ht h1 hU h2
    unfold rdClassify rdClassifyCore
    simp [hre, ht, h1, her, hU, h2]
  · intro manifest model extract sha1f t flags0 ident0 hre her ht h1 hU
    unfold rdClassify rdClassifyCore
    simp [hre, ht, h1, her, hU]

/-- Witness for C3: a concrete double miss pins the identity to Erase with
`FLAG_CUSTOM` set after exactly one swap. -/
theorem claim3_swap_at_most_once_witness :
    (rdClassify true manifest3 "n41ap" ext3 sha3 (some tk3) fl3 (some identE3)).swaps
      ≤ 1 ∧
    rdClassify true manifest3 "n41ap" ext3 sha3 (some tk3) fl3 (some identE3) =
      ⟨{ fl3 with erase := true, custom := true }, some identE3, 1, 2⟩ := by
  constructor
  · exact claim3_swap_at_most_once.1 true manifest3 "n41ap" ext3 sha3 (some tk3) fl3
      (some identE3)
  · have h := claim3_swap_at_most_once.2.1 manifest3 "n41ap" ext3 sha3 tk3 fl3
      (some identE3) identU3 rfl rfl (by decide) (by decide) rfl (by decide)
    rw [h]
    rfl

/-! ## Claim C1 -/

/-- Claim C1: in a re-restore session starting on the Erase identity, when the
Erase ramdisk body digest is not a 0x14-byte window of the APTicket but an Update
identity exists whose ramdisk body digest is such a window, the classifier ends on
the Update identity with `FLAG_CUSTOM` clear. -/
theorem claim1_update_identity_selected
    (manifest : Plist) (model : String) (extract : String → Option (List Nat))
    (sha1f : List Nat → List Nat) (t : List Nat) (flags0 : Flags)
    (identE identU : Plist) (pE pU : String) (rdE rdU : List Nat)
    (hre : flags0.rerestore = true) (her : flags0.erase = true)
    (hcu : flags0.custom = false)
    (ht : t.length ≠ 0)
    (hpE : build_identity_get_component_path (some identE) "RestoreRamDisk" = some pE)
    (heE : extract pE = some rdE) (hlE : 0x14 ≤ rdE.length) (hsE : le32 rdE 0xC ≠ 0)
    (hmissE : ticketHasHash t (sha1f (rdE.drop 0xC)) = false)
    (hlookU : build_manifest_get_build_identity_for_model_with_restore_behavior
      manifest model (some "Update") = some identU)
    (hpU : build_identity_get_component_path (some identU) "RestoreRamDisk" = some pU)
    (heU : extract pU = some rdU) (hlU : 0x14 ≤ rdU.length) (hsU : le32 rdU 0xC ≠ 0)
    (hhitU : ticketHasHash t (sha1f (rdU.drop 0xC)) = true) :
    (rdClassify true manifest model extract sha1f (some t) flags0
      (some identE)).identity = some identU ∧
    (rdClassify true manifest model extract sha1f (some t) flags0
      (some identE)).flags.custom = false := by
  have haE : rdAttempt extract sha1f t (some identE) = .missed := by
    have h0 : ¬rdE.length = 0 := by omega
    have h1 : ¬rdE.length < 0x14 := by omega
    simp [rdAttempt, hpE, heE, h0, h1, hsE, hmissE]
  have haU : rdAttempt extract sha1f t (some identU) = .found := by
    have h0 : ¬rdU.length = 0 := by omega
    have h1 : ¬rdU.length < 0x14 := by omega
    simp [rdAttempt, hpU, heU, h0, h1, hsU, hhitU]
  unfold rdClassify rdClassifyCore
  simp [hre, ht, haE, her, hlookU, haU, attemptScans, hcu]

/-- Witness for C1: the concrete Erase-miss / Update-hit scenario ends on the
Update identity with the custom flag clear. -/
theorem claim1_update_identity_selected_witness :
    (rdClassify true manifest1 "n41ap" ext1 sha1w (some tk1) fl1
      (some identE1)).identity = some identU1 ∧
    (rdClassify true manifest1 "n41ap" ext1 sha1w (some tk1) fl1
      (some identE1)).flags.custom = false :=
  claim1_update_identity_selected manifest1 "n41ap" ext1 sha1w tk1 fl1 identE1 identU1
    "e1.dmg" "u1.dmg" rdE1 rdU1 rfl rfl rfl (by decide) rfl rfl (by decide) (by decide)
    (by decide) rfl rfl rfl (by decide) (by decide) (by decide)

/-! ## Claim C8 -/

/-- Claim C8 as amended: whenever the start sequence reaches the image-format
check and the device reports Image4 support, the session exits with -1 before any
build identity is selected and before any TSS request is sent; the exit-restore
reboot and the WTF bootstrap, however, may already have been driven at that point. -/
theorem rebootTrace_mem_kinds (env : StartEnv) (flags : Flags) :
    Ev.image4Reject ∉ rebootTrace env flags ∧
    Ev.selectIdentity ∉ rebootTrace env flags ∧
    Ev.ticketRequest ∉ rebootTrace env flags := by
  unfold rebootTrace latestTrace detectTrace modeAfterWtf
  split_ifs <;> simp

theorem latestTrace_mem_kinds (env : StartEnv) (flags : Flags) :
    Ev.image4Reject ∉ latestTrace env flags ∧
    Ev.selectIdentity ∉ latestTrace env flags ∧
    Ev.ticketRequest ∉ latestTrace env flags := by
  unfold latestTrace detectTrace
  split_ifs <;> simp

theorem detectTrace_mem_kinds (env : StartEnv) :
    Ev.image4Reject ∉ detectTrace env ∧
    Ev.selectIdentity ∉ detectTrace env ∧
    Ev.ticketRequest ∉ detectTrace env := by
  unfold detectTrace
  split_ifs <;> simp

/-- Either the start-sequence trace never mentions the Image4 rejection, or the
run is exactly the rejection leaf. -/
theorem startSeqWith_image4_cases (env : StartEnv) (flags : Flags) :
    Ev.image4Reject ∉ (startSeqWith env flags).1 ∨
    startSeqWith env flags =
      (rebootTrace env flags ++ [.extractManifest, .compatCheck, .image4Reject],
       some (-1)) := by
  have hr := (rebootTrace_mem_kinds env flags).1
  have hl := (latestTrace_mem_kinds env flags).1
  have hd := (detectTrace_mem_kinds env).1
  unfold startSeqWith
  by_cases c1 : (flags.latest && flags.custom) = true
  · rw [if_pos c1]; left; simp
  rw [if_neg c1]
  by_cases c2 : (!env.ipswGiven && !flags.latest) = true
  · rw [if_pos c2]; left; simp
  rw [if_neg c2]
  by_cases c3 : env.initialMode = Mode.unknown
  · rw [if_pos c3]; left; simp
  rw [if_neg c3]
  by_cases c4 : env.initialMode = Mode.wtf ∧ ¬env.wtfOk = true
  · rw [if_pos c4]; left; simp
  rw [if_neg c4]
  by_cases c5 : (!env.modelOk) = true
  · rw [if_pos c5]; left; simpa using hd
  rw [if_neg c5]
  by_cases c6 : flags.latest = true ∧ ¬env.latestOk = true
  · rw [if_pos c6]; left; simp [hd]
  rw [if_neg c6]
  by_cases c7 : flags.noaction = true
  · rw [if_pos c7]; left; simpa using hl
  rw [if_neg c7]
  by_cases c8 : modeAfterWtf env = Mode.restore ∧ ¬env.rebootOk = true
  · rw [if_pos c8]; left; simp [hl]
  rw [if_neg c8]
  by_cases c9 : modeAfterWtf env = Mode.restore ∧ env.modeAfterReboot = Mode.unknown
  · rw [if_pos c9]; left; simp [hl]
  rw [if_neg c9]
  by_cases c10 : (!env.ipswExists) = true
  · rw [if_pos c10]; left; simpa using hr
  rw [if_neg c10]
  by_cases c11 : (!env.manifestOk) = true
  · rw [if_pos c11]; left; simp [hr]
  rw [if_neg c11]
  by_cases c12 : (!env.compatOk) = true
  · rw [if_pos c12]; left; simp [hr]
  rw [if_neg c12]
  by_cases c13 : env.image4supported = true
  · rw [if_pos c13]; right; rfl
  rw [if_neg c13]
  left
  split_ifs <;> simp [hr]

theorem claim8_reject_before_selection_amended (env : StartEnv)
    (h : Ev.image4Reject ∈ (startSeq env).1) :
    (startSeq env).2 = some (-1) ∧ Ev.selectIdentity ∉ (startSeq env).1 ∧
    Ev.ticketRequest ∉ (startSeq env).1 := by
  have hr := rebootTrace_mem_kinds env (fixupFlags env.flags)
  rcases startSeqWith_image4_cases env (fixupFlags env.flags) with hno | heq
  · rw [startSeq] at h
    exact absurd h hno
  · rw [startSeq] at h ⊢
    rw [heq]
    refine ⟨rfl, ?_, ?_⟩
    · simp [hr.2.1]
    · simp [hr.2.2]

/-- Counterexample for C8: an Image4-capable device found in Restore mode is
driven through the exit-restore reboot before the image-format rejection, so a
device transition does happen before the session is rejected. -/
theorem claim8_reboot_before_image4_check :
    env8.image4supported = true ∧
    (startSeq env8).1 =
      [.checkMode, .exitRestoreReboot, .extractManifest, .compatCheck, .image4Reject] ∧
    (startSeq env8).2 = some (-1) := by
  decide

/-- Witness for C8's amended statement at a DFU-mode Image4 session. -/
theorem claim8_reject_before_selection_amended_witness :
    (startSeq env8w).2 = some (-1) ∧ Ev.selectIdentity ∉ (startSeq env8w).1 ∧
    Ev.ticketRequest ∉ (startSeq env8w).1 :=
  claim8_reject_before_selection_amended env8w (by decide)

end IdeviceReRestore
